import Mathlib

/-!
# Verification of the udbg diagnostic engine (src/udbg.c)

Shallow embedding of the udbg in-process logging / crash-diagnostic engine.
Pure index arithmetic and string formatting are translated directly from
`src/udbg.c`; calls into libc (`vsnprintf`, `write`, `clock_gettime`,
`pthread_mutex_timedlock`, the demangler capability) are modelled by passing
their observable results as explicit parameters.  A `none` result everywhere
stands for the `panic()` path, which terminates the process.
-/

namespace Udbg

/-! ## Constants from src/udbg.c -/

/-- `#define UDBG_BUF_LEN 65536` — the soft capacity (comment: "real"). -/
def UDBG_BUF_LEN : Int := 65536

/-- `#define UDBG_BUF (UDBG_BUF_LEN + 1)` — the "used" capacity handed to vsnprintf. -/
def UDBG_BUF : Int := UDBG_BUF_LEN + 1

/-- `#define UDBG_BUF_RESERVED 128` — extra slack after the used capacity. -/
def UDBG_BUF_RESERVED : Int := 128

/-- Size of the `char buf[UDBG_BUF + UDBG_BUF_RESERVED]` array: valid
indices are `0 .. BUF_SIZE - 1`. -/
def BUF_SIZE : Int := UDBG_BUF + UDBG_BUF_RESERVED

/-- The spec's soft capacity `C` (truncation threshold in `buf_vaprintf`). -/
def C_soft : Int := UDBG_BUF_LEN

/-- The spec's reserved slack `R`: everything of the array past `C`. -/
def R_slack : Int := BUF_SIZE - UDBG_BUF_LEN

/-- Option bit `UDBG_TIME` (0x1). -/
def UDBG_TIME : Nat := 0x1

/-- Option bit `UDBG_TRUNCATE` (0x2). -/
def UDBG_TRUNCATE : Nat := 0x2

/-- Option bit `UDBG_SUFFIX` (0x4). -/
def UDBG_SUFFIX : Nat := 0x4

/-- Option bit `UDBG_NOSIG` (0x8). -/
def UDBG_NOSIG : Nat := 0x8

/-- Option bit `UDBG_CORE` (0x10). -/
def UDBG_CORE : Nat := 0x10

/-- `#define is_set(mask, attr) ({ ((mask) & (attr)); })` — the raw bitwise
AND, used as a C truth value (nonzero = set). -/
def is_set (mask attr : Nat) : Nat := mask &&& attr

/-! ## Bounded buffer: `buf_vaprintf` (src/udbg.c:115-145)

The formatted payload is abstracted to `amt`, the value `vsnprintf` returns:
the length the fully formatted text *would* have (C99 semantics; `-1` on
encoding error).  `vsnprintf` itself writes at most `UDBG_BUF - iterator`
bytes (NUL included), but the code advances `iterator` by the full `amt`.

The truncation marker `" ..\n[udbg::snprintf()] output truncated\n"` is
written by `snprintf` with bound `remaining = BUF_SIZE - iterator`; per C99
/ POSIX, `snprintf` returns the would-be length (40) whenever the size
argument is a representable nonnegative count, and fails with `-1`
(`EOVERFLOW`) when the negative `int` `remaining` converts to a `size_t`
above `INT_MAX`.  The final statement `ptr->buf[ptr->iterator] = 0` stores a
NUL at the final iterator; we record that index to reason about
out-of-bounds stores. -/

/-- The fixed truncation notice appended once the cursor reaches the soft
capacity. -/
def trunc_msg : String := " ..\n[udbg::snprintf()] output truncated\n"

/-- Length that `snprintf` reports for the truncation notice. -/
def trunc_marker_len : Int := (trunc_msg.length : Int)

/-- Result of one `buf_vaprintf` call that did not panic. -/
structure VaprintfResult where
  /-- `ptr->iterator` after the call. -/
  iterator : Int
  /-- Index of the final `ptr->buf[ptr->iterator] = 0` store
  (`none` when the early-return guard skipped the body). -/
  nulIndex : Option Int
deriving Repr, DecidableEq

/-- `buf_vaprintf` on a buffer whose cursor is `it`, appending a payload
whose fully formatted length is `amt` (`amt < 0` models a `vsnprintf`
encoding error).  `none` models `panic()`. -/
def buf_vaprintf (it amt : Int) : Option VaprintfResult :=
  if it > UDBG_BUF then
    some { iterator := it, nulIndex := none }
  else if amt < 0 then
    none
  else
    let it2 := it + amt
    if it2 ≥ UDBG_BUF_LEN then
      let remaining := UDBG_BUF + UDBG_BUF_RESERVED - it2
      if remaining < 0 then
        none
      else
        some { iterator := it2 + trunc_marker_len,
               nulIndex := some (it2 + trunc_marker_len) }
    else
      some { iterator := it2, nulIndex := some it2 }

/-! ## `buf_flush` (src/udbg.c:158-167)

`write(fd, ptr->buf, ptr->iterator)` is modelled by recording the request
(descriptor and byte count) and taking the syscall's return value `wres` as
a parameter: `-1` is an error (panic), any other value is the number of
bytes actually written.  The code only compares the result against `-1`. -/

/-- The single `write` syscall issued by `buf_flush`. -/
structure WriteCall where
  /-- Descriptor written to. -/
  fd : Int
  /-- Byte count requested: always the buffer cursor. -/
  count : Int
deriving Repr, DecidableEq

/-- `buf_flush fd it wres`: the issued write request, and the resulting
cursor (`none` models `panic()` on `write` returning `-1`; otherwise the
cursor is reset to `0`). -/
def buf_flush (fd it wres : Int) : WriteCall × Option Int :=
  ({ fd := fd, count := it }, if wres = -1 then none else some 0)

/-! ## Timestamps: `buf_timestamp` (src/udbg.c:170-190)

When `UDBG_TIME` is set, `strftime(.., 12, "[%X]", ..)` renders the wall
clock time as the 10-character `[HH:MM:SS]` at the cursor and the cursor
advances by 10 (any other `strftime` result panics; a conforming locale is
assumed, so the model always advances by exactly 10).  We record which
time value was formatted as an `Effect.timestamp`. -/

/-- Observable effects of a logging-surface call, in program order. -/
inductive Effect where
  /-- `clock_gettime` round trip inside `state_lock`. -/
  | clockRead : Effect
  /-- `pthread_mutex_timedlock` succeeded; `t` is the value `state_lock`
  returns (the wall clock read at its entry). -/
  | lockAcquire (t : Int) : Effect
  /-- `buf_timestamp` formatted the time value `t` into the buffer. -/
  | timestamp (t : Int) : Effect
  /-- `buf_flush` issued a `write` requesting `n` bytes. -/
  | writeOut (n : Int) : Effect
  /-- `pthread_mutex_unlock`. -/
  | lockRelease : Effect
deriving Repr, DecidableEq

/-- Result of a logging-surface call: `ret` models returning to the caller
with the main-buffer cursor `it`; `died` models process termination
(`panic()` or `exit_stub()`).  `fx` lists the effects that happened. -/
inductive Outcome where
  | ret (it : Int) (fx : List Effect) : Outcome
  | died (fx : List Effect) : Outcome
deriving Repr, DecidableEq

/-- The effect list of an outcome. -/
def Outcome.fx : Outcome → List Effect
  | .ret _ fx => fx
  | .died fx => fx

/-- `buf_timestamp attr t it`: new cursor and emitted effects.  Mirrors the
early return on `!is_set(attr, UDBG_TIME)` and the exact-10-character
`[HH:MM:SS]` write otherwise. -/
def buf_timestamp (attr : Nat) (t : Int) (it : Int) : Int × List Effect :=
  if is_set attr UDBG_TIME ≠ 0 then (it + 10, [Effect.timestamp t])
  else (it, [])

/-! ## Timed lock: `state_lock` (src/udbg.c:304-338), `state_unlock` -/

/-- Environment result of one `state_lock` attempt: the initial
`clock_gettime` can fail, and `pthread_mutex_timedlock` returns success,
`ETIMEDOUT`, or another error. -/
inductive LockOutcome where
  | clockErr : LockOutcome
  | ok (now : Int) : LockOutcome
  | timedout : LockOutcome
  | err : LockOutcome
deriving Repr, DecidableEq

/-- `delay.tv_sec += 5`: the absolute deadline handed to
`pthread_mutex_timedlock`, bounding the wait at five seconds past the
clock value read on entry. -/
def lock_deadline (now : Int) : Int := now + 5

/-- `state_lock`: panics (`none`) on clock failure, timeout, or any other
lock error; on success returns `now.tv_sec`, the wall clock read at entry,
which callers reuse as the log timestamp. -/
def state_lock : LockOutcome → Option Int
  | .ok now => some now
  | _ => none

/-- Effects that happened before a failing `state_lock` panicked: the
clock was read unless `clock_gettime` itself failed. -/
def lock_fx : LockOutcome → List Effect
  | .clockErr => []
  | _ => [Effect.clockRead]

/-- Folding `buf_vaprintf` over a sequence of formatted lengths (used for
the per-frame `buf_snprintf` calls of `buf_backtrace` and for the row
writes of the dump routines); `none` models a panic in any step. -/
def buf_appendAll : Int → List Int → Option Int
  | it, [] => some it
  | it, a :: rest =>
    match buf_vaprintf it a with
    | none => none
    | some r => buf_appendAll r.iterator rest

/-! ## `__udbg_init` (src/udbg.c:389-527): channel mask selection -/

/-- `state.channels_mask = channels ? : ((uint64_t) (-1))` — a zero mask at
init enables every channel (all 64 bits set). -/
def udbg_init_mask (channels : Nat) : Nat :=
  if channels = 0 then 2 ^ 64 - 1 else channels

/-! ## `__udbg_log` (src/udbg.c:549-566)

The formatted message is abstracted to its `vsnprintf` length `amt`, the
`write` result to `wres`, and the lock/clock environment to `lk`. -/

/-- Model of `__udbg_log`. -/
def udbg_log (mask channel attr : Nat) (fd it : Int) (lk : LockOutcome)
    (amt wres : Int) : Outcome :=
  if is_set mask channel = 0 then .ret it []
  else
    match state_lock lk with
    | none => .died (lock_fx lk)
    | some now =>
      let ts := buf_timestamp attr now it
      let fx0 := Effect.clockRead :: Effect.lockAcquire now :: ts.2
      match buf_vaprintf ts.1 amt with
      | none => .died fx0
      | some r =>
        let w := buf_flush fd r.iterator wres
        match w.2 with
        | none => .died fx0
        | some it2 => .ret it2 (fx0 ++ [Effect.writeOut w.1.count, Effect.lockRelease])

/-! ## Hex and binary dumps (src/udbg.c:569-680)

`asc_output`, `hex_converter` and the row formats are translated exactly;
`%-24s` / `%-16s` / `%8d` are modelled by space padding. -/

/-- `asc_output` (src/udbg.c:574-582): printable bytes pass through, the
rest render as a dot. -/
def asc_output (ch : Nat) : Char :=
  if 0x1f < ch ∧ ch < 0x7f then Char.ofNat ch else '.'

/-- The digit table `const char hex[] = "0123456789abcdef"` of
`hex_converter`. -/
def hexChars : List Char := "0123456789abcdef".data

/-- `hex_converter` (src/udbg.c:585-592): two hex digits and a space. -/
def hex_converter (b : Nat) : String :=
  String.mk [hexChars.getD (b >>> 4) '0', hexChars.getD (b &&& 0xf) '0', ' ']

/-- `%-Ns`: left-aligned, space-padded to width `w`. -/
def padRight (s : String) (w : Nat) : String :=
  s ++ String.mk (List.replicate (w - s.length) ' ')

/-- `%Nd`: right-aligned, space-padded to width `w`. -/
def padLeft (s : String) (w : Nat) : String :=
  String.mk (List.replicate (w - s.length) ' ') ++ s

/-- The outer hexdump loop `for (i = 0; i < len; i += 16)`: each iteration
consumes the next (up to) 16 bytes. -/
def chunks16 : List Nat → List (List Nat)
  | [] => []
  | b :: rest => ((b :: rest).take 16) :: chunks16 ((b :: rest).drop 16)
termination_by l => l.length
decreasing_by simp [List.length_drop]; omega

/-- The outer bindump loop `for (i = 0; i < len; i += 8)`. -/
def chunks8 : List Nat → List (List Nat)
  | [] => []
  | b :: rest => ((b :: rest).take 8) :: chunks8 ((b :: rest).drop 8)
termination_by l => l.length
decreasing_by simp [List.length_drop]; omega

/-- One hexdump data row, `"%8d  %-24s %-24s |%-16s|\n"`: the first 8 bytes
as the left hex group, the next 8 as the right group, and the ASCII gutter
over all 16. -/
def hexdump_row (i : Int) (rowBytes : List Nat) : String :=
  let left := String.join ((rowBytes.take 8).map hex_converter)
  let right := String.join (((rowBytes.drop 8).take 8).map hex_converter)
  let ascii := String.mk (rowBytes.map asc_output)
  padLeft (toString i) 8 ++ "  " ++ padRight left 24 ++ " " ++
    padRight right 24 ++ " |" ++ padRight ascii 16 ++ "|\n"

/-- The data rows `__udbg_hexdump` formats into the buffer, with their
byte-offset prefixes. -/
def hexdump_rows (data : List Nat) : List String :=
  (chunks16 data).mapIdx fun k chunk => hexdump_row (16 * (k : Int)) chunk

/-- One byte of a bindump row: 8 binary digits, most significant bit
first (the inner `for (k = 7; k >= 0; k--)` loop). -/
def bin_byte (b : Nat) : String :=
  String.mk ((List.range 8).map fun k => if b &&& (1 <<< (7 - k)) ≠ 0 then '1' else '0')

/-- One bindump data row, `"%8d  %s\n"`, the decoded row being
space-separated binary groups. -/
def bindump_row (i : Int) (chunk : List Nat) : String :=
  padLeft (toString i) 8 ++ "  " ++
    String.join (chunk.map fun b => bin_byte b ++ " ") ++ "\n"

/-- The data rows `__udbg_bindump` formats into the buffer. -/
def bindump_rows (data : List Nat) : List String :=
  (chunks8 data).mapIdx fun k chunk => bindump_row (8 * (k : Int)) chunk

/-- Model of `__udbg_hexdump` (src/udbg.c:595-640): channel gate, timed
lock, timestamp, label line `"%s\n"`, one `buf_snprintf` per data row,
flush, unlock.  `lbl` is the label text, `data` the dumped bytes. -/
def udbg_hexdump (mask channel attr : Nat) (fd it : Int) (lk : LockOutcome)
    (lbl : String) (data : List Nat) (wres : Int) : Outcome :=
  if is_set mask channel = 0 then .ret it []
  else
    match state_lock lk with
    | none => .died (lock_fx lk)
    | some now =>
      let ts := buf_timestamp attr now it
      let fx0 := Effect.clockRead :: Effect.lockAcquire now :: ts.2
      match buf_vaprintf ts.1 ((lbl.length : Int) + 1) with
      | none => .died fx0
      | some r =>
        match buf_appendAll r.iterator
            ((hexdump_rows data).map fun s => (s.length : Int)) with
        | none => .died fx0
        | some it2 =>
          let w := buf_flush fd it2 wres
          match w.2 with
          | none => .died fx0
          | some it3 => .ret it3 (fx0 ++ [Effect.writeOut w.1.count, Effect.lockRelease])

/-- Model of `__udbg_bindump` (src/udbg.c:643-680). -/
def udbg_bindump (mask channel attr : Nat) (fd it : Int) (lk : LockOutcome)
    (lbl : String) (data : List Nat) (wres : Int) : Outcome :=
  if is_set mask channel = 0 then .ret it []
  else
    match state_lock lk with
    | none => .died (lock_fx lk)
    | some now =>
      let ts := buf_timestamp attr now it
      let fx0 := Effect.clockRead :: Effect.lockAcquire now :: ts.2
      match buf_vaprintf ts.1 ((lbl.length : Int) + 1) with
      | none => .died fx0
      | some r =>
        match buf_appendAll r.iterator
            ((bindump_rows data).map fun s => (s.length : Int)) with
        | none => .died fx0
        | some it2 =>
          let w := buf_flush fd it2 wres
          match w.2 with
          | none => .died fx0
          | some it3 => .ret it3 (fx0 ++ [Effect.writeOut w.1.count, Effect.lockRelease])

/-! ## `__udbg_throwfmt` (src/udbg.c:530-546)

The fatal path: no channel gate (the mask parameter below models
`state.channels_mask`, which this function never reads), lock, timestamp,
message, backtrace frames (their formatted lengths are `frameAmts`), flush,
then `exit_stub()` — every branch terminates the process. -/

/-- Model of `__udbg_throwfmt`. -/
def udbg_throwfmt (mask attr : Nat) (fd it : Int) (lk : LockOutcome)
    (amt : Int) (frameAmts : List Int) (wres : Int) : Outcome :=
  match state_lock lk with
  | none => .died (lock_fx lk)
  | some now =>
    let ts := buf_timestamp attr now it
    let fx0 := Effect.clockRead :: Effect.lockAcquire now :: ts.2
    match buf_vaprintf ts.1 amt with
    | none => .died fx0
    | some r =>
      match buf_appendAll r.iterator frameAmts with
      | none => .died fx0
      | some it2 =>
        let w := buf_flush fd it2 wres
        match w.2 with
        | none => .died fx0
        | some _ => .died (fx0 ++ [Effect.writeOut w.1.count])

/-! ## Backtrace symbolication: `buf_backtrace` (src/udbg.c:196-277)

The scan that extracts the substring between `'('` and `'+'` from each
`backtrace_symbols` descriptor is abstracted to its result: each frame is
either `none` (no resolvable name — the character after `'('` is `'+'` and
the frame is skipped by `continue`) or `some name`.  The demangler
capability's observable behaviour per call is a returned pointer, the
value it left in the in/out length, and the status out-parameter. -/

/-- One demangler invocation's observable results: the returned pointer
(`none` = `NULL`), the value left in `*len`, and the status code. -/
structure DemCall where
  ret : Option String
  outLen : Nat
  status : Int
deriving Repr, DecidableEq

/-- `%.*s`: print at most `n` characters of a NUL-terminated string. -/
def take_chars (s : String) (n : Nat) : String :=
  String.mk (s.data.take n)

/-- One frame line, `buf_snprintf(ptr, "[%i] %.*s%s\n", ...)`. -/
def frame_line (k : Int) (nm sfx : String) : String :=
  "[" ++ toString k ++ "] " ++ nm ++ sfx ++ "\n"

/-- The `switch (status)` of `buf_backtrace` when a demangler is
registered: statuses `-1` (allocation error) and `-3` (invalid args)
panic; `-2` (demangle failed) keeps the mangled name (up to the in/out
length) with the synthetic `"()"` suffix; every other status is the
success path — a `NULL` return panics, otherwise the returned text is used
in full with an empty suffix.  Yields the printed name and suffix. -/
def demangle_dispatch (mangled : String) (d : DemCall) : Option (String × String) :=
  if d.status = -1 ∨ d.status = -3 then none
  else if d.status = -2 then some (take_chars mangled d.outLen, "()")
  else
    match d.ret with
    | none => none
    | some t => some (t, "")

/-- The loop of `buf_backtrace` without a demangler: frame `i` of `depth`
resolved frames prints `[depth - i] name()`; unresolved frames are
skipped. -/
def backtrace_lines (depth : Nat) : Nat → List (Option String) → List String
  | _, [] => []
  | i, none :: rest => backtrace_lines depth (i + 1) rest
  | i, some nm :: rest =>
      frame_line ((depth : Int) - (i : Int)) nm "()" :: backtrace_lines depth (i + 1) rest

/-! ## Signal handler: `__udbg_sig_handler` (src/udbg.c:354-383)

The crash-buffer text: optional timestamp, then the header
`"[udbg::%s] %s\n\n"` with `sigabbrev_np(sig)` and
`strerrorname_np(siginfo->si_errno) ?: "unknown_errno"`, then the
symbolicated frames, then a flush of the crash buffer and `exit_stub()`. -/

/-- The crash header line plus the blank line that follows it. -/
def sig_header (sigName : String) (errName : Option String) : String :=
  "[udbg::" ++ sigName ++ "] " ++ errName.getD "unknown_errno" ++ "\n\n"

/-- The full text the signal handler formats into the crash buffer.
`useTime` is `is_set(state.options, UDBG_TIME)`; `timeStr` the 10-character
timestamp it would prepend; `symbols` the per-frame resolved names. -/
def sig_crash_output (useTime : Bool) (timeStr : String) (sigName : String)
    (errName : Option String) (symbols : List (Option String)) : String :=
  (if useTime then timeStr else "") ++ sig_header sigName errName ++
    String.join (backtrace_lines symbols.length 0 symbols)

/-- The `udbg_assert` macro (`__udbg_assert_impl`, src/udbg_bits.h:72-75):
`if (!(expr_)) { __udbg_throwfmt(...); }` — a true condition is a no-op
with no side effects, a false one invokes the fatal path. -/
def udbg_assert (cond : Bool) (mask attr : Nat) (fd it : Int)
    (lk : LockOutcome) (amt : Int) (frameAmts : List Int) (wres : Int) : Outcome :=
  if cond then .ret it []
  else udbg_throwfmt mask attr fd it lk amt frameAmts wres

end Udbg

open Udbg

/-- Helper: the truncation notice is 40 bytes long. -/
theorem trunc_marker_len_eq : trunc_marker_len = 40 := by decide

/-- **C1.** The spec claims the buffer cursor always satisfies
`0 ≤ cursor ≤ C+R` and that no single append can advance it past `C+R`.
The code violates this: starting from cursor 60000, an append whose
formatted length is 5650 lands the cursor at 65650 (within the array), the
truncation-marker `snprintf` is bounded to the 15 remaining bytes but still
reports a would-be length of 40, and the cursor advances to 65690 —
beyond `C+R = 65665` — with the final NUL stored at offset 65690, past the
`65665`-byte array. -/
theorem c1_cursor_exceeds_hard_limit :
    buf_vaprintf 60000 5650 =
      some { iterator := 65690, nulIndex := some 65690 } ∧
    C_soft + R_slack = 65665 ∧
    (65690 : Int) > C_soft + R_slack := by
  refine ⟨by decide, by decide, by decide⟩

/-- **C2.** The spec claims that when the slack region cannot hold the
truncation notice, the process terminates (fatal overflow) rather than
writing past the buffer.  The code violates this: from cursor 65000, an
append of formatted length 660 leaves `remaining = 5` bytes of slack —
too few for the 41-byte (40 chars + NUL) notice — yet `snprintf` succeeds
(truncating the notice), no panic occurs, and the final NUL is stored at
offset 65700, past the 65665-byte array. -/
theorem c2_exhausted_slack_writes_past_buffer :
    buf_vaprintf 65000 660 =
      some { iterator := 65700, nulIndex := some 65700 } ∧
    BUF_SIZE - (65000 + 660) < trunc_marker_len + 1 ∧
    (65700 : Int) ≥ BUF_SIZE := by
  refine ⟨by decide, by decide, by decide⟩

/-- **C3 (counterexample).** The claim says a short write (fewer than
`cursor` bytes written) is fatal.  It is not: with cursor 100 and `write`
returning 50, `buf_flush` does not panic and resets the cursor to 0. -/
theorem c3_short_write_not_fatal :
    (buf_flush 2 100 50).2 = some 0 ∧ (0 : Int) ≤ 50 ∧ (50 : Int) < 100 := by
  refine ⟨by decide, by decide, by decide⟩

/-- **C3 (amended).** `buf_flush` issues a single `write` requesting exactly
`cursor` bytes on the given descriptor; a write *error* (`write` returning
`-1`) is fatal; a short write is not detected — whenever `write` does not
return `-1`, the cursor is reset to `0` regardless of how many bytes were
actually written. -/
theorem c3_buf_flush_amended (fd it wres : Int) :
    (buf_flush fd it wres).1.count = it ∧
    (buf_flush fd it wres).1.fd = fd ∧
    (wres = -1 → (buf_flush fd it wres).2 = none) ∧
    (wres ≠ -1 → (buf_flush fd it wres).2 = some 0) := by
  refine ⟨rfl, rfl, ?_, ?_⟩ <;> intro h <;> simp [buf_flush, h]

/-- **C3 (witness).** The amended flush behaviour at concrete inputs:
an errored write panics, a successful (even short) write resets the cursor. -/
theorem c3_buf_flush_amended_witness :
    (buf_flush 2 100 (-1)).2 = none ∧ (buf_flush 2 100 50).2 = some 0 :=
  ⟨(c3_buf_flush_amended 2 100 (-1)).2.2.1 rfl,
   (c3_buf_flush_amended 2 100 50).2.2.2 (by decide)⟩

/-- Helper: in the no-overflow regime an append advances the cursor by the
formatted length and stores the NUL there. -/
theorem buf_vaprintf_nooverflow (it amt : Int) (h0 : 0 ≤ it) (h1 : 0 ≤ amt)
    (h2 : it + amt < UDBG_BUF_LEN) :
    buf_vaprintf it amt =
      some { iterator := it + amt, nulIndex := some (it + amt) } := by
  have hA : ¬ (it > UDBG_BUF) := by
    simp only [UDBG_BUF, UDBG_BUF_LEN] at h2 ⊢; omega
  have hB : ¬ (amt < 0) := by omega
  have hC : ¬ (it + amt ≥ UDBG_BUF_LEN) := by omega
  simp only [buf_vaprintf, if_neg hA, if_neg hB, if_neg hC]

/-- Helper: `__udbg_throwfmt` terminates the process on every path. -/
theorem udbg_throwfmt_died (mask attr : Nat) (fd it : Int) (lk : LockOutcome)
    (amt : Int) (frameAmts : List Int) (wres : Int) :
    ∃ fx, udbg_throwfmt mask attr fd it lk amt frameAmts wres = Outcome.died fx := by
  simp only [udbg_throwfmt]
  repeat (first | exact ⟨_, rfl⟩ | split)

/-- Helper: the outer hexdump loop runs once per 16-byte chunk. -/
theorem chunks16_length (l : List Nat) :
    (chunks16 l).length = (l.length + 15) / 16 := by
  induction l using chunks16.induct with
  | case1 => simp [chunks16]
  | case2 b rest ih =>
    rw [chunks16, List.length_cons, ih]
    simp only [List.length_drop, List.length_cons]
    omega

/-- Helper: on all-resolved symbol lists, `buf_backtrace` numbers frame `j`
(counting from the start index `i`) as `depth - (i + j)`. -/
theorem backtrace_lines_map_some (depth : Nat) (i : Nat) (names : List String) :
    backtrace_lines depth i (names.map Option.some) =
      names.mapIdx fun j nm =>
        frame_line ((depth : Int) - ((i + j : Nat) : Int)) nm "()" := by
  induction names generalizing i with
  | nil => simp [backtrace_lines]
  | cons nm rest ih =>
    simp only [List.map_cons, backtrace_lines, List.mapIdx_cons, ih (i + 1),
      List.cons.injEq]
    constructor
    · norm_num
    · rw [List.mapIdx_eq_mapIdx_iff]
      intro j hj
      congr 1
      omega

/-- **C4.** Channel gating: a `log`/`hexdump`/`bindump` call whose channel
shares no set bit with the mask returns at once with no effects (no bytes
written); `__udbg_throwfmt` (fatal / failed assert) never returns to the
caller, its behaviour does not depend on the channel mask at all, and on
the normal path it flushes at least one byte before terminating. -/
theorem c4_gating_and_unconditional_fatal :
    (∀ (mask channel attr : Nat) (fd it : Int) (lk : LockOutcome) (amt wres : Int),
        is_set mask channel = 0 →
        udbg_log mask channel attr fd it lk amt wres = Outcome.ret it []) ∧
    (∀ (mask channel attr : Nat) (fd it : Int) (lk : LockOutcome) (lbl : String)
        (data : List Nat) (wres : Int), is_set mask channel = 0 →
        udbg_hexdump mask channel attr fd it lk lbl data wres = Outcome.ret it []) ∧
    (∀ (mask channel attr : Nat) (fd it : Int) (lk : LockOutcome) (lbl : String)
        (data : List Nat) (wres : Int), is_set mask channel = 0 →
        udbg_bindump mask channel attr fd it lk lbl data wres = Outcome.ret it []) ∧
    (∀ (mask attr : Nat) (fd it : Int) (lk : LockOutcome) (amt : Int)
        (frameAmts : List Int) (wres : Int), ∃ fx,
        udbg_throwfmt mask attr fd it lk amt frameAmts wres = Outcome.died fx) ∧
    (∀ (mask mask2 attr : Nat) (fd it : Int) (lk : LockOutcome) (amt : Int)
        (frameAmts : List Int) (wres : Int),
        udbg_throwfmt mask attr fd it lk amt frameAmts wres =
          udbg_throwfmt mask2 attr fd it lk amt frameAmts wres) ∧
    (∀ (mask attr : Nat) (fd it : Int) (lk : LockOutcome) (amt : Int)
        (frameAmts : List Int) (wres : Int), ∃ fx,
        udbg_assert false mask attr fd it lk amt frameAmts wres = Outcome.died fx) ∧
    (∀ (mask attr : Nat) (fd it now amt wres : Int),
        0 ≤ it → it ≤ 50000 → 1 ≤ amt → amt ≤ 10000 → wres ≠ -1 →
        ∃ n, 1 ≤ n ∧ Effect.writeOut n ∈
          (udbg_throwfmt mask attr fd it (LockOutcome.ok now) amt [] wres).fx) := by
  refine ⟨?_, ?_, ?_, ?_, ?_, ?_, ?_⟩
  · intro mask channel attr fd it lk amt wres h
    simp [udbg_log, h]
  · intro mask channel attr fd it lk lbl data wres h
    simp [udbg_hexdump, h]
  · intro mask channel attr fd it lk lbl data wres h
    simp [udbg_bindump, h]
  · exact udbg_throwfmt_died
  · intro mask mask2 attr fd it lk amt frameAmts wres
    rfl
  · intro mask attr fd it lk amt frameAmts wres
    simpa [udbg_assert] using udbg_throwfmt_died mask attr fd it lk amt frameAmts wres
  · intro mask attr fd it now amt wres h0 h1 h2 h3 hw
    simp only [udbg_throwfmt, state_lock]
    by_cases hT : is_set attr UDBG_TIME ≠ 0
    · rw [buf_timestamp, if_pos hT]
      rw [buf_vaprintf_nooverflow (it + 10) amt (by omega) (by omega)
        (by simp only [UDBG_BUF_LEN]; omega)]
      simp only [buf_appendAll, buf_flush, if_neg hw, Outcome.fx]
      exact ⟨it + 10 + amt, by omega, by simp⟩
    · rw [buf_timestamp, if_neg hT]
      rw [buf_vaprintf_nooverflow it amt (by omega) (by omega)
        (by simp only [UDBG_BUF_LEN]; omega)]
      simp only [buf_appendAll, buf_flush, if_neg hw, Outcome.fx]
      exact ⟨it + amt, by omega, by simp⟩

/-- **C4 (witness).** Concrete instances: channel 2 under mask 4 is
silent for all three dump surfaces even while the lock would time out, and
a throw under that same mask still writes and terminates. -/
theorem c4_witness :
    udbg_log 4 2 0 2 7 LockOutcome.timedout 5 5 = Outcome.ret 7 [] ∧
    udbg_hexdump 4 2 0 2 7 LockOutcome.timedout "x" [1, 2] 5 = Outcome.ret 7 [] ∧
    udbg_bindump 4 2 0 2 7 LockOutcome.timedout "x" [1, 2] 5 = Outcome.ret 7 [] ∧
    (∃ n, 1 ≤ n ∧ Effect.writeOut n ∈
      (udbg_throwfmt 4 0 2 0 (LockOutcome.ok 9) 5 [] 5).fx) :=
  ⟨c4_gating_and_unconditional_fatal.1 4 2 0 2 7 LockOutcome.timedout 5 5 (by decide),
   c4_gating_and_unconditional_fatal.2.1 4 2 0 2 7 LockOutcome.timedout "x" [1, 2] 5
     (by decide),
   c4_gating_and_unconditional_fatal.2.2.1 4 2 0 2 7 LockOutcome.timedout "x" [1, 2] 5
     (by decide),
   c4_gating_and_unconditional_fatal.2.2.2.2.2.2 4 0 2 0 9 5 5 (by decide) (by decide)
     (by decide) (by decide) (by decide)⟩

set_option maxRecDepth 8192 in
/-- **C5.** `__udbg_hexdump` formats exactly `⌈L/16⌉` data rows for an
input of `L` bytes, and in the ASCII gutter (the `asc_output` image of the
row bytes, visible in the row layout) a byte is rendered as itself exactly
when `0x20 ≤ b < 0x7f` and as a dot otherwise. -/
theorem c5_hexdump_rowcount_and_gutter :
    (∀ data : List Nat, (hexdump_rows data).length = (data.length + 15) / 16) ∧
    (∀ b : Nat, b < 256 →
        ((asc_output b = Char.ofNat b) ↔ (0x20 ≤ b ∧ b < 0x7f)) ∧
        (¬(0x20 ≤ b ∧ b < 0x7f) → asc_output b = Char.ofNat 0x2e)) ∧
    (∀ (i : Int) (rowBytes : List Nat),
        hexdump_row i rowBytes =
          padLeft (toString i) 8 ++ "  " ++
          padRight (String.join ((rowBytes.take 8).map hex_converter)) 24 ++ " " ++
          padRight (String.join (((rowBytes.drop 8).take 8).map hex_converter)) 24 ++
          " |" ++ padRight (String.mk (rowBytes.map asc_output)) 16 ++ "|\n") := by
  refine ⟨?_, ?_, ?_⟩
  · intro data
    simp [hexdump_rows, chunks16_length]
  · decide
  · intro i rowBytes
    rfl

set_option maxRecDepth 8192 in
/-- **C5 (witness).** 17 bytes make two rows; byte 10 (not printable)
renders as a dot, byte 65 renders as itself. -/
theorem c5_witness :
    (hexdump_rows (List.replicate 17 65)).length = 2 ∧
    asc_output 10 = Char.ofNat 0x2e ∧
    asc_output 65 = Char.ofNat 65 := by
  refine ⟨?_, ?_, ?_⟩
  · have h := c5_hexdump_rowcount_and_gutter.1 (List.replicate 17 65)
    simpa using h
  · exact (c5_hexdump_rowcount_and_gutter.2.1 10 (by decide)).2 (by decide)
  · exact (c5_hexdump_rowcount_and_gutter.2.1 65 (by decide)).1.mpr (by decide)

/-- **C6.** The timed lock: the absolute deadline handed to
`pthread_mutex_timedlock` is the entry clock reading plus five seconds;
a timeout (or any other lock failure) panics — an enabled `log` call with
a timed-out lock dies after only the clock read; a successful acquisition
returns the wall-clock value read inside `state_lock`, and an enabled
`log` call with `UDBG_TIME` set stamps exactly that value into the
buffer. -/
theorem c6_timed_lock_bound_and_timestamp :
    (∀ now : Int, lock_deadline now = now + 5) ∧
    (∀ now : Int, state_lock (LockOutcome.ok now) = some now) ∧
    (state_lock LockOutcome.timedout = none) ∧
    (∀ (mask channel attr : Nat) (fd it amt wres : Int),
        is_set mask channel ≠ 0 →
        udbg_log mask channel attr fd it LockOutcome.timedout amt wres =
          Outcome.died [Effect.clockRead]) ∧
    (∀ (mask channel : Nat) (fd it amt wres now : Int),
        is_set mask channel ≠ 0 →
        Effect.timestamp now ∈
          (udbg_log mask channel UDBG_TIME fd it (LockOutcome.ok now) amt wres).fx) := by
  refine ⟨fun _ => rfl, fun _ => rfl, rfl, ?_, ?_⟩
  · intro mask channel attr fd it amt wres h
    simp [udbg_log, h, state_lock, lock_fx]
  · intro mask channel fd it amt wres now h
    have ht : buf_timestamp UDBG_TIME now it = (it + 10, [Effect.timestamp now]) := by
      simp [buf_timestamp, is_set, UDBG_TIME]
    simp only [udbg_log, if_neg h, state_lock, ht]
    cases hv : buf_vaprintf (it + 10) amt with
    | none => simp [Outcome.fx]
    | some r =>
      by_cases hw : wres = -1
      · simp [buf_flush, hw, Outcome.fx]
      · simp [buf_flush, hw, Outcome.fx]

/-- **C6 (witness).** Concrete lock outcomes: a timed-out acquisition on an
enabled channel dies after the clock read; a successful one at time 42
stamps 42. -/
theorem c6_witness :
    udbg_log 1 1 1 2 0 LockOutcome.timedout 5 5 = Outcome.died [Effect.clockRead] ∧
    Effect.timestamp 42 ∈ (udbg_log 1 1 UDBG_TIME 2 0 (LockOutcome.ok 42) 5 5).fx :=
  ⟨c6_timed_lock_bound_and_timestamp.2.2.2.1 1 1 1 2 0 5 5 (by decide),
   c6_timed_lock_bound_and_timestamp.2.2.2.2 1 1 2 0 5 5 42 (by decide)⟩

/-- **C7.** The demangler contract in `buf_backtrace`: status `-2`
(demangle failed) keeps the mangled name verbatim (given the capability
leaves the in/out length intact) with the usual synthetic suffix; status
`0` (success) uses the capability's returned text with an empty suffix —
and the printed frame line then carries no `"()"`; statuses `-1`
(allocation error) and `-3` (invalid arguments) panic. -/
theorem c7_demangler_contract (mangled : String) (d : DemCall) :
    (d.status = -2 → d.outLen = mangled.length →
        demangle_dispatch mangled d = some (mangled, "()")) ∧
    (∀ t, d.status = 0 → d.ret = some t →
        demangle_dispatch mangled d = some (t, "")) ∧
    (d.status = -1 → demangle_dispatch mangled d = none) ∧
    (d.status = -3 → demangle_dispatch mangled d = none) ∧
    (∀ (k : Int) (t : String),
        frame_line k t "" = "[" ++ toString k ++ "] " ++ t ++ "\n") := by
  have hx : take_chars mangled mangled.length = mangled := by
    show String.mk (mangled.data.take mangled.length) = mangled
    have hl : mangled.length = mangled.data.length := rfl
    rw [hl, List.take_length]
  refine ⟨?_, ?_, ?_, ?_, ?_⟩
  · intro hs hlen
    simp [demangle_dispatch, hs, hlen, hx]
  · intro t hs hr
    simp [demangle_dispatch, hs, hr]
  · intro hs
    simp [demangle_dispatch, hs]
  · intro hs
    simp [demangle_dispatch, hs]
  · intro k t
    simp [frame_line]

/-- **C7 (witness).** A concrete capability run for each status: failure
keeps `"_Zf"` verbatim, success substitutes the demangled text with empty
suffix, allocation error panics. -/
theorem c7_witness :
    demangle_dispatch "_Zf" { ret := none, outLen := 3, status := -2 } =
      some ("_Zf", "()") ∧
    demangle_dispatch "_Zf" { ret := some "f()", outLen := 3, status := 0 } =
      some ("f()", "") ∧
    demangle_dispatch "_Zf" { ret := none, outLen := 3, status := -1 } = none :=
  ⟨(c7_demangler_contract "_Zf" { ret := none, outLen := 3, status := -2 }).1
      rfl (by decide),
   (c7_demangler_contract "_Zf" { ret := some "f()", outLen := 3, status := 0 }).2.1
      "f()" rfl rfl,
   (c7_demangler_contract "_Zf" { ret := none, outLen := 3, status := -1 }).2.2.1
      rfl⟩

set_option maxRecDepth 8192 in
/-- **C8 (counterexample).** The claim's header format is wrong on two
counts: the signal name is bracketed as `[udbg::<sig>]`, not `[<sig>]`,
and a nameless errno renders as `"unknown_errno"`, not `"unknown"`; the
frame numbering counts down from the frame count at the innermost frame,
not up by distance from it.  At signal `SEGV`, nameless errno and two
resolved frames `f` (innermost), `g`, the code output is
`[udbg::SEGV] unknown_errno\n\n[2] f()\n[1] g()\n`, which differs from the
claimed header and from ascending numbering. -/
theorem c8_crash_header_counterexample :
    sig_crash_output false "" "SEGV" none [some "f", some "g"] =
      "[udbg::SEGV] unknown_errno\n\n[2] f()\n[1] g()\n" ∧
    sig_crash_output false "" "SEGV" none [some "f", some "g"] ≠
      "[SEGV] unknown\n\n[2] f()\n[1] g()\n" ∧
    sig_crash_output false "" "SEGV" none [some "f", some "g"] ≠
      "[udbg::SEGV] unknown_errno\n\n[1] f()\n[2] g()\n" := by
  refine ⟨by decide, by decide, by decide⟩

/-- **C8 (amended).** With `UDBG_TIME` unset, the crash output is the
one-line header `[udbg::<signal-abbrev>] <errno-name-or-"unknown_errno">`,
a blank line, then one line `[<n>] <name>()` per resolved frame, where
frame `j` (innermost first) is numbered `depth - j`: counting down from
the frame count at the innermost frame to 1 at the outermost. -/
theorem c8_crash_format_amended (sigName : String) (errName : Option String)
    (names : List String) :
    sig_crash_output false "" sigName errName (names.map Option.some) =
      "[udbg::" ++ sigName ++ "] " ++ errName.getD "unknown_errno" ++ "\n\n" ++
      String.join (names.mapIdx fun j nm =>
        frame_line ((names.length : Int) - (j : Int)) nm "()") := by
  simp only [sig_crash_output, sig_header, List.length_map, if_false]
  rw [backtrace_lines_map_some]
  simp [Nat.zero_add]

/-- **C9.** A `log`/`hexdump`/`bindump` call on a disabled channel returns
before the clock read, the lock attempt and any buffer access: for every
lock/clock environment (including one that would time out) the outcome is
a normal return with the cursor unchanged and an empty effect list — no
clock read, no lock acquisition, no write, no termination. -/
theorem c9_disabled_channel_pure_noop :
    ∀ mask channel : Nat, is_set mask channel = 0 →
      ∀ (attr : Nat) (fd it : Int) (lk : LockOutcome) (amt wres : Int)
        (lbl : String) (data : List Nat),
        udbg_log mask channel attr fd it lk amt wres = Outcome.ret it [] ∧
        udbg_hexdump mask channel attr fd it lk lbl data wres = Outcome.ret it [] ∧
        udbg_bindump mask channel attr fd it lk lbl data wres = Outcome.ret it [] := by
  intro mask channel h attr fd it lk amt wres lbl data
  refine ⟨?_, ?_, ?_⟩ <;> simp [udbg_log, udbg_hexdump, udbg_bindump, h]

/-- **C9 (witness).** Channel 2 under mask 5: even with a clock that would
fail and a lock that would time out, all three calls are pure no-ops. -/
theorem c9_witness :
    udbg_log 5 2 1 2 3 LockOutcome.timedout 7 7 = Outcome.ret 3 [] ∧
    udbg_hexdump 5 2 1 2 3 LockOutcome.clockErr "lbl" [1] 7 = Outcome.ret 3 [] ∧
    udbg_bindump 5 2 1 2 3 LockOutcome.err "lbl" [1] 7 = Outcome.ret 3 [] :=
  ⟨(c9_disabled_channel_pure_noop 5 2 (by decide) 1 2 3 LockOutcome.timedout 7 7
      "lbl" [1]).1,
   (c9_disabled_channel_pure_noop 5 2 (by decide) 1 2 3 LockOutcome.clockErr 7 7
      "lbl" [1]).2.1,
   (c9_disabled_channel_pure_noop 5 2 (by decide) 1 2 3 LockOutcome.err 7 7
      "lbl" [1]).2.2⟩

/-- **C10.** Channel gating is a bitwise AND against the 64-bit mask: the
gate passes exactly when the mask and the channel argument share at least
one set bit; a zero channel mask at init becomes all-ones; yet a call with
channel argument 0 is always dropped, even under that all-ones mask. -/
theorem c10_bitwise_and_gating :
    (∀ mask channel : Nat, is_set mask channel ≠ 0 ↔
        ∃ i, mask.testBit i = true ∧ channel.testBit i = true) ∧
    udbg_init_mask 0 = 2 ^ 64 - 1 ∧
    (∀ (attr : Nat) (fd it : Int) (lk : LockOutcome) (amt wres : Int),
        udbg_log (udbg_init_mask 0) 0 attr fd it lk amt wres = Outcome.ret it []) := by
  refine ⟨?_, by simp [udbg_init_mask], ?_⟩
  · intro mask channel
    unfold is_set
    constructor
    · intro h
      by_contra hc
      push_neg at hc
      apply h
      apply Nat.eq_of_testBit_eq
      intro i
      simp only [Nat.testBit_land, Nat.zero_testBit]
      cases hm : mask.testBit i <;> cases hch : channel.testBit i <;> simp_all
    · rintro ⟨i, h1, h2⟩ h0
      have hbit := congrArg (fun n => n.testBit i) h0
      simp [Nat.testBit_land, h1, h2] at hbit
  · intro attr fd it lk amt wres
    simp [udbg_log, is_set]
